import Mathlib

/-!
Verification development for `extension/create_simple_icons.py`.

The script renders three placeholder icons (16, 48, 128 px): each is a square
canvas filled with the background color `#667eea`, with the glyph "L" drawn in
white at a computed offset, then saved under a fixed output directory.

Shallow embedding conventions:
* An image is a width, a height and a total pixel map `Int → Int → Color`;
  only coordinates inside `[0,width) × [0,height)` correspond to real pixels,
  and the map returns the base color elsewhere (drawing clips to the canvas).
* The PIL primitives the script calls (`ImageFont.truetype`,
  `ImageFont.load_default`, `draw.textbbox`, `draw.text`, `img.save`) are
  external to the repository, so they are modelled by an environment `Env ε`:
  `truetype` either returns a font or raises (any exception, error type `ε`),
  `load_default` is the `defaultFont` field, a font carries the bounding box
  `textbbox((0,0), "L", font)` and the set of ink offsets of "L" relative to
  the drawing anchor, and saving at a path either succeeds or raises.
* `int(size * 0.6)` truncates toward zero.  For a nonnegative integer `size`
  this equals `size * 6 / 10` in natural-number division: the binary
  floating-point product `size * 0.6` differs from the exact value `3*size/5`
  by well under the distance to the next integer boundary for every size of
  this program's magnitude (and when `3*size/5` is an integer the product
  rounds to it exactly), so truncation agrees with the exact floor.
* Python's `//` on integers is floor division, embedded as `Int.fdiv`.
* The filesystem is a map from path to optionally stored image; the PNG
  encoding step is deterministic in the image, so file contents are
  identified with the stored `Img` value.
-/

namespace CreateSimpleIcons

/-- An RGB color, one `Nat` per channel. -/
structure Color where
  r : Nat
  g : Nat
  b : Nat
  deriving DecidableEq

/-- The background fill `'#667eea'` of `Image.new` (RGB 102, 126, 234). -/
def bgColor : Color := ⟨102, 126, 234⟩

/-- The fill `'white'` of `draw.text` (RGB 255, 255, 255). -/
def whiteColor : Color := ⟨255, 255, 255⟩

/-- A text bounding box as returned by `draw.textbbox((0, 0), text, font)`:
`x0 = bbox[0]`, `y0 = bbox[1]`, `x1 = bbox[2]`, `y1 = bbox[3]`. -/
structure BBox where
  x0 : Int
  y0 : Int
  x1 : Int
  y1 : Int
  deriving DecidableEq

/-- A loaded font, as far as the script observes it: the bounding box that
`draw.textbbox((0, 0), "L", font)` reports, and the set of ink offsets
(relative to the anchor passed to `draw.text`) that drawing "L" marks. -/
structure Font where
  bboxL : BBox
  inkedL : Int → Int → Bool

/-- A raster image: dimensions plus a total pixel map.  Coordinates outside
`[0,width) × [0,height)` return the base color (nothing is ever drawn there). -/
structure Img where
  width : Nat
  height : Nat
  pix : Int → Int → Color

/-- `Image.new('RGB', (size, size), c)`: a square canvas filled with `c`. -/
def Image.new (size : Nat) (c : Color) : Img :=
  { width := size, height := size, pix := fun _ _ => c }

/-- `draw.text((x, y), "L", fill=fill, font=f)`: every canvas coordinate whose
offset from the anchor `(x, y)` is an ink offset of the glyph is set to
`fill`; coordinates outside the canvas are clipped and keep their value. -/
def drawText (img : Img) (x y : Int) (fill : Color) (f : Font) : Img :=
  { img with
    pix := fun px py =>
      if 0 ≤ px ∧ px < (img.width : Int) ∧ 0 ≤ py ∧ py < (img.height : Int) ∧
          f.inkedL (px - x) (py - y) = true
      then fill
      else img.pix px py }

/-- The external PIL and filesystem behavior the script depends on, with `ε`
the type of Python exceptions.  `truetype path sz` models
`ImageFont.truetype(path, sz)` (raising on any failure), `defaultFont` models
`ImageFont.load_default()`, and `saveFails p = some e` models `img.save(p)`
raising `e` (permissions, missing directory, ...), `none` a successful write. -/
structure Env (ε : Type) where
  truetype : String → Nat → Except ε Font
  defaultFont : Font
  saveFails : String → Option ε

/-- The fixed primary font path `'/System/Library/Fonts/Arial.ttf'`. -/
def fontPath : String := "/System/Library/Fonts/Arial.ttf"

/-- The fixed output directory of the `img.save` f-string and `os.makedirs`. -/
def outputDir : String := "/Users/maciejorlowski/lumos/extension/icons"

/-- The save path `f'/Users/maciejorlowski/lumos/extension/icons/{filename}'`. -/
def outPath (filename : String) : String := outputDir ++ "/" ++ filename

/-- `font_size = int(size * 0.6)`: 60% of `size`, truncated toward zero (see
the file comment for why exact truncation agrees with the float computation). -/
def fontSizeOf (size : Nat) : Nat := size * 6 / 10

/-- The body of the `try` block of `create_icon`: first compute `font_size`
(a step that can itself raise, e.g. when `size` is not a number — hence a
general `Except` argument), then `ImageFont.truetype(...)`. -/
def tryFontLoad {ε : Type} (env : Env ε) (fontSizeStep : Except ε Nat) : Except ε Font :=
  match fontSizeStep with
  | Except.error e => Except.error e
  | Except.ok n => env.truetype fontPath n

/-- The whole `try/except` of `create_icon`: a bare `except:` catches every
exception from the block and falls back to `ImageFont.load_default()`. -/
def selectFont {ε : Type} (env : Env ε) (fontSizeStep : Except ε Nat) : Font :=
  match tryFontLoad env fontSizeStep with
  | Except.ok f => f
  | Except.error _ => env.defaultFont

/-- The font `create_icon` ends up drawing with for an integer `size`:
the `font_size` computation succeeds, then the `try/except` resolves. -/
def iconFont {ε : Type} (env : Env ε) (size : Nat) : Font :=
  selectFont env (Except.ok (fontSizeOf size))

/-- `text_width = bbox[2] - bbox[0]`. -/
def textWidth (f : Font) : Int := f.bboxL.x1 - f.bboxL.x0

/-- `text_height = bbox[3] - bbox[1]`. -/
def textHeight (f : Font) : Int := f.bboxL.y1 - f.bboxL.y0

/-- `x = (size - text_width) // 2` (Python floor division). -/
def offsetX (size : Nat) (f : Font) : Int :=
  Int.fdiv ((size : Int) - textWidth f) 2

/-- `y = (size - text_height) // 2` (Python floor division). -/
def offsetY (size : Nat) (f : Font) : Int :=
  Int.fdiv ((size : Int) - textHeight f) 2

/-- The in-memory image `create_icon(size, _)` builds: new canvas, font
resolution with fallback, bbox measurement, centered offsets, white "L". -/
def renderIcon {ε : Type} (env : Env ε) (size : Nat) : Img :=
  let img := Image.new size bgColor
  let font := iconFont env size
  drawText img (offsetX size font) (offsetY size font) whiteColor font

/-- The filesystem: what image, if any, is stored at each path. -/
def FS : Type := String → Option Img

/-- `create_icon(size, filename)`: render, then `img.save(...)` (overwriting
any file at the path; a raise propagates — there is no handler), then
`print(f'Created {filename}')` appended to the output transcript. -/
def createIcon {ε : Type} (env : Env ε) (fs : FS) (out : List String) (size : Nat)
    (filename : String) : Except ε (FS × List String) :=
  let img := renderIcon env size
  let path := outPath filename
  match env.saveFails path with
  | some e => Except.error e
  | none =>
      Except.ok (fun p => if p = path then some img else fs p,
        out ++ ["Created " ++ filename])

/-- The module-level script: `os.makedirs(..., exist_ok=True)` (no effect on
the file map), then the three `create_icon` calls in order, then the final
`print('All icons created successfully!')`.  An uncaught exception stops the
run: the result carries the files and transcript accumulated so far and the
exception, `none` when the run completed. -/
def runMain {ε : Type} (env : Env ε) (fs : FS) : FS × List String × Option ε :=
  match createIcon env fs [] 16 "icon16.png" with
  | Except.error e => (fs, [], some e)
  | Except.ok (fs1, out1) =>
    match createIcon env fs1 out1 48 "icon48.png" with
    | Except.error e => (fs1, out1, some e)
    | Except.ok (fs2, out2) =>
      match createIcon env fs2 out2 128 "icon128.png" with
      | Except.error e => (fs2, out2, some e)
      | Except.ok (fs3, out3) =>
          (fs3, out3 ++ ["All icons created successfully!"], none)

/-! Concrete fixtures used by witness theorems. -/

/-- A sample bounding box with nonzero origin, as `textbbox` typically
reports for a truetype font. -/
def sampleBBox : BBox := ⟨1, 2, 7, 11⟩

/-- A sample font whose ink fills its bounding box exactly. -/
def sampleFont : Font :=
  { bboxL := sampleBBox,
    inkedL := fun dx dy => decide (1 ≤ dx ∧ dx < 7 ∧ 2 ≤ dy ∧ dy < 11) }

/-- Environment where the primary font loads and every save succeeds. -/
def envOk : Env Unit :=
  { truetype := fun _ _ => Except.ok sampleFont,
    defaultFont := sampleFont,
    saveFails := fun _ => none }

/-- Environment where `ImageFont.truetype` raises and saves succeed. -/
def envNoFont : Env Unit :=
  { truetype := fun _ _ => Except.error (),
    defaultFont := sampleFont,
    saveFails := fun _ => none }

/-- Environment where saving `icon48.png` raises and everything else works. -/
def envFail48 : Env Unit :=
  { truetype := fun _ _ => Except.ok sampleFont,
    defaultFont := sampleFont,
    saveFails := fun p => if p = outPath "icon48.png" then some () else none }

/-- Environment where every save raises. -/
def envFailAll : Env Unit :=
  { truetype := fun _ _ => Except.ok sampleFont,
    defaultFont := sampleFont,
    saveFails := fun _ => some () }

/-- The empty filesystem. -/
def emptyFS : FS := fun _ => none

/-! Shared helper lemmas. -/

/-- When the save at `outPath filename` succeeds, `create_icon` stores the
rendered image at exactly that path (overwriting whatever was there) and
prints the `Created` line. -/
theorem createIcon_ok {ε : Type} (env : Env ε) (fs : FS) (out : List String) (size : Nat)
    (filename : String) (h : env.saveFails (outPath filename) = none) :
    createIcon env fs out size filename =
      Except.ok (fun p => if p = outPath filename then some (renderIcon env size) else fs p,
        out ++ ["Created " ++ filename]) := by
  simp only [createIcon]
  rw [h]

/-- When all three saves succeed, the script stores the three rendered icons
at their paths, leaves every other path untouched, prints the three `Created`
lines and the completion line, and raises nothing. -/
theorem runMain_ok {ε : Type} (env : Env ε) (fs : FS)
    (h16 : env.saveFails (outPath "icon16.png") = none)
    (h48 : env.saveFails (outPath "icon48.png") = none)
    (h128 : env.saveFails (outPath "icon128.png") = none) :
    runMain env fs =
      (fun p =>
        if p = outPath "icon128.png" then some (renderIcon env 128)
        else if p = outPath "icon48.png" then some (renderIcon env 48)
        else if p = outPath "icon16.png" then some (renderIcon env 16)
        else fs p,
       ["Created icon16.png", "Created icon48.png", "Created icon128.png",
        "All icons created successfully!"], none) := by
  simp only [runMain, createIcon_ok _ _ _ _ _ h16, createIcon_ok _ _ _ _ _ h48,
    createIcon_ok _ _ _ _ _ h128]
  rfl

/-! Theorems for the claims. -/

/-- C1: for every positive `size`, `create_icon` renders a square canvas of
exactly `size × size` pixels, and every pixel outside the glyph's drawn
region (the ink offsets of "L" translated by the computed anchor) holds the
fixed background color `#667eea`; instantiating `size` at 16, 48 and 128
gives the three configured edge lengths. -/
theorem C1_square_canvas_background {ε : Type} (env : Env ε) (size : Nat) (_hpos : 0 < size)
    (px py : Int)
    (hno : (iconFont env size).inkedL (px - offsetX size (iconFont env size))
      (py - offsetY size (iconFont env size)) = false) :
    (renderIcon env size).width = size ∧ (renderIcon env size).height = size ∧
    (renderIcon env size).pix px py = bgColor := by
  refine ⟨rfl, rfl, ?_⟩
  simp only [renderIcon, drawText, Image.new]
  rw [if_neg]
  rintro ⟨-, -, -, -, h⟩
  rw [hno] at h
  exact Bool.false_ne_true h

/-- Witness for C1 at `size = 16`, pixel `(0, 0)` (outside the glyph). -/
theorem C1_square_canvas_background_witness :
    0 < 16 ∧ ((renderIcon envOk 16).width = 16 ∧ (renderIcon envOk 16).height = 16 ∧
      (renderIcon envOk 16).pix 0 0 = bgColor) :=
  ⟨by decide, C1_square_canvas_background envOk 16 (by decide) 0 0 (by decide)⟩

/-- C2: the glyph "L" is drawn in solid white at horizontal offset
`(size - text_width) // 2` and vertical offset `(size - text_height) // 2`
(floor division), where `text_width = bbox[2] - bbox[0]` and
`text_height = bbox[3] - bbox[1]` for the selected font: every ink offset of
the glyph that lands inside the canvas appears as a white pixel at the anchor
plus that offset. -/
theorem C2_glyph_white_at_computed_offset {ε : Type} (env : Env ε) (size : Nat) (dx dy : Int)
    (hink : (iconFont env size).inkedL dx dy = true)
    (hx0 : 0 ≤ offsetX size (iconFont env size) + dx)
    (hx1 : offsetX size (iconFont env size) + dx < (size : Int))
    (hy0 : 0 ≤ offsetY size (iconFont env size) + dy)
    (hy1 : offsetY size (iconFont env size) + dy < (size : Int)) :
    offsetX size (iconFont env size) =
      Int.fdiv ((size : Int) -
        ((iconFont env size).bboxL.x1 - (iconFont env size).bboxL.x0)) 2 ∧
    offsetY size (iconFont env size) =
      Int.fdiv ((size : Int) -
        ((iconFont env size).bboxL.y1 - (iconFont env size).bboxL.y0)) 2 ∧
    (renderIcon env size).pix (offsetX size (iconFont env size) + dx)
      (offsetY size (iconFont env size) + dy) = whiteColor := by
  refine ⟨rfl, rfl, ?_⟩
  simp only [renderIcon, drawText, Image.new]
  rw [if_pos]
  exact ⟨hx0, hx1, hy0, hy1, by rwa [add_sub_cancel_left, add_sub_cancel_left]⟩

/-- Witness for C2 at `size = 16` with ink offset `(1, 2)`. -/
theorem C2_glyph_white_at_computed_offset_witness :
    (iconFont envOk 16).inkedL 1 2 = true ∧
    (renderIcon envOk 16).pix (offsetX 16 (iconFont envOk 16) + 1)
      (offsetY 16 (iconFont envOk 16) + 2) = whiteColor :=
  ⟨by decide,
   (C2_glyph_white_at_computed_offset envOk 16 1 2 (by decide) (by decide) (by decide)
     (by decide) (by decide)).2.2⟩

/-- C3: if `ImageFont.truetype` raises at the fixed path, `create_icon`
falls back to `ImageFont.load_default()` and still succeeds: no exception
from the font-loading step escapes, the call returns normally, and a
non-empty (`size × size`, `0 < size`) image is rendered and saved at the
output path. -/
theorem C3_font_fallback_still_succeeds {ε : Type} (env : Env ε) (fs : FS) (out : List String)
    (size : Nat) (filename : String) (e : ε)
    (hfont : env.truetype fontPath (fontSizeOf size) = Except.error e)
    (hsave : env.saveFails (outPath filename) = none) (hpos : 0 < size) :
    iconFont env size = env.defaultFont ∧
    createIcon env fs out size filename =
      Except.ok (fun p => if p = outPath filename then some (renderIcon env size) else fs p,
        out ++ ["Created " ++ filename]) ∧
    (renderIcon env size).width = size ∧ (renderIcon env size).height = size ∧
    0 < (renderIcon env size).width := by
  refine ⟨?_, createIcon_ok env fs out size filename hsave, rfl, rfl, hpos⟩
  simp only [iconFont, selectFont, tryFontLoad, hfont]

/-- Witness for C3: `envNoFont` raises on every `truetype` call. -/
theorem C3_font_fallback_still_succeeds_witness :
    iconFont envNoFont 16 = envNoFont.defaultFont ∧
    createIcon envNoFont emptyFS [] 16 "icon16.png" =
      Except.ok
        (fun p => if p = outPath "icon16.png" then some (renderIcon envNoFont 16) else emptyFS p,
         [] ++ ["Created " ++ "icon16.png"]) ∧
    (renderIcon envNoFont 16).width = 16 ∧ (renderIcon envNoFont 16).height = 16 ∧
    0 < (renderIcon envNoFont 16).width := by
  have h := C3_font_fallback_still_succeeds envNoFont emptyFS [] 16 "icon16.png" () rfl rfl
    (by decide)
  exact h

/-- C4 counterexample: the claim says the font size passed to the loader is
60% of the edge length rounded to an integer, in particular `round(9.6) = 10`
at edge length 16; the code computes `int(size * 0.6)`, which truncates:
at 16 the loader receives 9, not 10. -/
theorem C4_counterexample : fontSizeOf 16 = 9 ∧ fontSizeOf 16 ≠ 10 := by
  constructor
  · rfl
  · decide

/-- C4 (amended): the pixel size passed to the scalable-font loader is 60% of
`edge_length` truncated toward zero (`int(size * 0.6)`), i.e. the floor of
`3 * size / 5`: it is the unique integer `n` with `n ≤ 3/5 · size < n + 1`;
at the configured edge lengths 16, 48, 128 the loader receives 28 and 76 for
48 and 128 and receives 9 (not `round(9.6) = 10`) for 16. -/
theorem C4_font_size_is_truncated_sixty_percent (size : Nat) :
    ((fontSizeOf size : ℚ) ≤ (3 / 5 : ℚ) * size ∧
      (3 / 5 : ℚ) * size < (fontSizeOf size : ℚ) + 1) ∧
    fontSizeOf 16 = 9 ∧ fontSizeOf 48 = 28 ∧ fontSizeOf 128 = 76 := by
  refine ⟨⟨?_, ?_⟩, rfl, rfl, rfl⟩ <;>
  · have h : 10 * (size * 6 / 10) + size * 6 % 10 = size * 6 := Nat.div_add_mod (size * 6) 10
    have h2 : size * 6 % 10 < 10 := Nat.mod_lt _ (by norm_num)
    have hq : (10 : ℚ) * ((size * 6 / 10 : Nat) : ℚ) + ((size * 6 % 10 : Nat) : ℚ) =
        (size : ℚ) * 6 := by exact_mod_cast h
    have h2q : ((size * 6 % 10 : Nat) : ℚ) < 10 := by exact_mod_cast h2
    have h0q : (0 : ℚ) ≤ ((size * 6 % 10 : Nat) : ℚ) := by positivity
    have hf : (fontSizeOf size : ℚ) = ((size * 6 / 10 : Nat) : ℚ) := rfl
    rw [hf]
    linarith

/-- When the save at `outPath filename` raises `e`, `create_icon` has no
handler: the exception propagates out of the call (and the `Created` line is
never printed). -/
theorem createIcon_err {ε : Type} (env : Env ε) (fs : FS) (out : List String) (size : Nat)
    (filename : String) (e : ε) (h : env.saveFails (outPath filename) = some e) :
    createIcon env fs out size filename = Except.error e := by
  simp only [createIcon]
  rw [h]

/-- The three output paths are pairwise distinct strings. -/
theorem outPaths_distinct :
    outPath "icon16.png" ≠ outPath "icon48.png" ∧
    outPath "icon16.png" ≠ outPath "icon128.png" ∧
    outPath "icon48.png" ≠ outPath "icon128.png" := by
  refine ⟨?_, ?_, ?_⟩ <;> decide

/-- C5: each `create_icon(size, filename)` call that saves successfully
persists exactly one file, at the fixed output directory joined with
`filename`, overwriting any previous entry there and touching no other path;
a full run with successful writes stores exactly the three files
`icon16.png`, `icon48.png`, `icon128.png`, rendered at edge lengths 16, 48
and 128 respectively. -/
theorem C5_writes_three_icon_files {ε : Type} (env : Env ε) (fs : FS)
    (h16 : env.saveFails (outPath "icon16.png") = none)
    (h48 : env.saveFails (outPath "icon48.png") = none)
    (h128 : env.saveFails (outPath "icon128.png") = none) :
    (∀ fs0 out size filename, env.saveFails (outPath filename) = none →
      createIcon env fs0 out size filename =
        Except.ok
          (fun p => if p = outPath filename then some (renderIcon env size) else fs0 p,
           out ++ ["Created " ++ filename])) ∧
    runMain env fs =
      (fun p =>
        if p = outPath "icon128.png" then some (renderIcon env 128)
        else if p = outPath "icon48.png" then some (renderIcon env 48)
        else if p = outPath "icon16.png" then some (renderIcon env 16)
        else fs p,
       ["Created icon16.png", "Created icon48.png", "Created icon128.png",
        "All icons created successfully!"], none) ∧
    (renderIcon env 16).width = 16 ∧ (renderIcon env 16).height = 16 ∧
    (renderIcon env 48).width = 48 ∧ (renderIcon env 48).height = 48 ∧
    (renderIcon env 128).width = 128 ∧ (renderIcon env 128).height = 128 :=
  ⟨fun fs0 out size filename h => createIcon_ok env fs0 out size filename h,
   runMain_ok env fs h16 h48 h128, rfl, rfl, rfl, rfl, rfl, rfl⟩

/-- Witness for C5: a run over the empty filesystem with all saves working. -/
theorem C5_writes_three_icon_files_witness :
    runMain envOk emptyFS =
      (fun p =>
        if p = outPath "icon128.png" then some (renderIcon envOk 128)
        else if p = outPath "icon48.png" then some (renderIcon envOk 48)
        else if p = outPath "icon16.png" then some (renderIcon envOk 16)
        else emptyFS p,
       ["Created icon16.png", "Created icon48.png", "Created icon128.png",
        "All icons created successfully!"], none) :=
  (C5_writes_three_icon_files envOk emptyFS rfl rfl rfl).2.1

/-- C6: a failing save is not handled inside `create_icon`: the exception
propagates out of the call, and whichever of the three sequential calls it
hits, the later calls never run (their files are not written, their
`Created` lines are not printed) and the final completion line is absent. -/
theorem C6_save_failure_aborts_rest {ε : Type} (env : Env ε) (fs : FS) (e : ε) :
    (∀ fs0 out size filename, env.saveFails (outPath filename) = some e →
      createIcon env fs0 out size filename = Except.error e) ∧
    (env.saveFails (outPath "icon16.png") = some e →
      runMain env fs = (fs, [], some e)) ∧
    (env.saveFails (outPath "icon16.png") = none →
      env.saveFails (outPath "icon48.png") = some e →
      runMain env fs =
        (fun p => if p = outPath "icon16.png" then some (renderIcon env 16) else fs p,
         ["Created icon16.png"], some e)) ∧
    (env.saveFails (outPath "icon16.png") = none →
      env.saveFails (outPath "icon48.png") = none →
      env.saveFails (outPath "icon128.png") = some e →
      runMain env fs =
        (fun p =>
          if p = outPath "icon48.png" then some (renderIcon env 48)
          else if p = outPath "icon16.png" then some (renderIcon env 16)
          else fs p,
         ["Created icon16.png", "Created icon48.png"], some e)) := by
  refine ⟨fun fs0 out size filename h => createIcon_err env fs0 out size filename e h,
    fun h1 => ?_, fun h1 h2 => ?_, fun h1 h2 h3 => ?_⟩
  · simp only [runMain, createIcon_err _ _ _ _ _ _ h1]
  · simp only [runMain, createIcon_ok _ _ _ _ _ h1, createIcon_err _ _ _ _ _ _ h2]
    rfl
  · simp only [runMain, createIcon_ok _ _ _ _ _ h1, createIcon_ok _ _ _ _ _ h2,
      createIcon_err _ _ _ _ _ _ h3]
    rfl

/-- Witness for C6: the save of `icon48.png` raises, so only `icon16.png`
is written and only its `Created` line is printed. -/
theorem C6_save_failure_aborts_rest_witness :
    runMain envFail48 emptyFS =
      (fun p => if p = outPath "icon16.png" then some (renderIcon envFail48 16) else emptyFS p,
       ["Created icon16.png"], some ()) :=
  (C6_save_failure_aborts_rest envFail48 emptyFS ()).2.2.1 (by decide) (by decide)

/-- C7: the run is deterministic — with the same environment (hence the same
font-resolution outcome) and successful saves, two runs store identical
contents at each of the three output paths whatever filesystem state they
start from, and a rerun over the first run's result overwrites every path
with exactly the contents it already has and prints the same transcript. -/
theorem C7_deterministic_idempotent_run {ε : Type} (env : Env ε) (fs fsAlt : FS)
    (h16 : env.saveFails (outPath "icon16.png") = none)
    (h48 : env.saveFails (outPath "icon48.png") = none)
    (h128 : env.saveFails (outPath "icon128.png") = none) :
    (∀ fn, fn = "icon16.png" ∨ fn = "icon48.png" ∨ fn = "icon128.png" →
      (runMain env fs).1 (outPath fn) = (runMain env fsAlt).1 (outPath fn)) ∧
    (∀ p, (runMain env ((runMain env fs).1)).1 p = (runMain env fs).1 p) ∧
    (runMain env ((runMain env fs).1)).2 = (runMain env fs).2 := by
  have e1 : outPath "icon16.png" ≠ outPath "icon48.png" := outPaths_distinct.1
  have e2 : outPath "icon16.png" ≠ outPath "icon128.png" := outPaths_distinct.2.1
  have e3 : outPath "icon48.png" ≠ outPath "icon128.png" := outPaths_distinct.2.2
  simp only [runMain_ok _ _ h16 h48 h128]
  refine ⟨?_, ?_, by trivial⟩
  · rintro fn (rfl | rfl | rfl) <;> simp [e1, e2, e3]
  · intro p
    by_cases hA : p = outPath "icon128.png"
    · simp [hA]
    by_cases hB : p = outPath "icon48.png"
    · simp [hA, hB]
    by_cases hC : p = outPath "icon16.png"
    · simp [hA, hB, hC]
    · simp [hA, hB, hC]

/-- Witness for C7: rerunning over the first run's output filesystem stores
the same content at `icon128.png` and yields the same transcript. -/
theorem C7_deterministic_idempotent_run_witness :
    (runMain envOk ((runMain envOk emptyFS).1)).1 (outPath "icon128.png") =
      (runMain envOk emptyFS).1 (outPath "icon128.png") ∧
    (runMain envOk ((runMain envOk emptyFS).1)).2 = (runMain envOk emptyFS).2 :=
  ⟨(C7_deterministic_idempotent_run envOk emptyFS emptyFS rfl rfl rfl).2.1
      (outPath "icon128.png"),
   (C7_deterministic_idempotent_run envOk emptyFS emptyFS rfl rfl rfl).2.2⟩

/-- C8: the anchor handed to `draw.text` is exactly
`((size - text_width) // 2, (size - text_height) // 2)` with no correction
for the bounding-box origin `(bbox[0], bbox[1])`: assuming the ink offsets
of "L" lie inside the measured box (what `textbbox` reports), every white
pixel of the rendered icon lies in
`[offsetX + x0, offsetX + x1) × [offsetY + y0, offsetY + y1)` — the box a
truly centered glyph would occupy, `[offsetX, offsetX + width) × ...`,
displaced by exactly `(x0, y0)`; the displacement vanishes iff the
bounding-box origin is `(0, 0)`. -/
theorem C8_ink_displaced_by_bbox_origin {ε : Type} (env : Env ε) (size : Nat) (px py : Int)
    (hbox : ∀ a b, (iconFont env size).inkedL a b = true →
      (iconFont env size).bboxL.x0 ≤ a ∧ a < (iconFont env size).bboxL.x1 ∧
      (iconFont env size).bboxL.y0 ≤ b ∧ b < (iconFont env size).bboxL.y1)
    (hwhite : (renderIcon env size).pix px py = whiteColor) :
    (offsetX size (iconFont env size) + (iconFont env size).bboxL.x0 ≤ px ∧
     px < offsetX size (iconFont env size) + (iconFont env size).bboxL.x1 ∧
     offsetY size (iconFont env size) + (iconFont env size).bboxL.y0 ≤ py ∧
     py < offsetY size (iconFont env size) + (iconFont env size).bboxL.y1) ∧
    ((offsetX size (iconFont env size) + (iconFont env size).bboxL.x0 =
        offsetX size (iconFont env size) ∧
      offsetY size (iconFont env size) + (iconFont env size).bboxL.y0 =
        offsetY size (iconFont env size)) ↔
      ((iconFont env size).bboxL.x0 = 0 ∧ (iconFont env size).bboxL.y0 = 0)) := by
  have h := hwhite
  simp only [renderIcon, drawText, Image.new] at h
  by_cases hc : (iconFont env size).inkedL (px - offsetX size (iconFont env size))
      (py - offsetY size (iconFont env size)) = true
  · have hb := hbox _ _ hc
    refine ⟨⟨by omega, by omega, by omega, by omega⟩, ?_⟩
    constructor
    · intro h9; omega
    · intro h9; omega
  · rw [if_neg (fun hfull => hc hfull.2.2.2.2)] at h
    exact absurd h (by decide)

/-- Witness for C8 at `size = 16`, white pixel `(6, 5)`, with `sampleFont`
whose ink fills its bounding box `(1, 2, 7, 11)`. -/
theorem C8_ink_displaced_by_bbox_origin_witness :
    (renderIcon envOk 16).pix 6 5 = whiteColor ∧
    (offsetX 16 (iconFont envOk 16) + (iconFont envOk 16).bboxL.x0 ≤ 6 ∧
     6 < offsetX 16 (iconFont envOk 16) + (iconFont envOk 16).bboxL.x1 ∧
     offsetY 16 (iconFont envOk 16) + (iconFont envOk 16).bboxL.y0 ≤ 5 ∧
     5 < offsetY 16 (iconFont envOk 16) + (iconFont envOk 16).bboxL.y1) :=
  ⟨by decide,
   (C8_ink_displaced_by_bbox_origin envOk 16 6 5
     (fun a b hab => of_decide_eq_true hab) (by decide)).1⟩

/-- C9: the bare `except:` catches every exception raised anywhere in the
try block — whether the `font_size` computation itself raises (an erroring
`fontSizeStep`, e.g. a non-numeric `size` argument) or `ImageFont.truetype`
raises — and in every such case execution continues with
`ImageFont.load_default()` instead of propagating: `selectFont` returns the
default font, and `create_icon` renders with it. -/
theorem C9_bare_except_catches_everything {ε : Type} (env : Env ε) (step : Except ε Nat)
    (size : Nat) (e : ε) :
    (step = Except.error e → selectFont env step = env.defaultFont) ∧
    (∀ n, step = Except.ok n → env.truetype fontPath n = Except.error e →
      selectFont env step = env.defaultFont) ∧
    (env.truetype fontPath (fontSizeOf size) = Except.error e →
      renderIcon env size =
        drawText (Image.new size bgColor) (offsetX size env.defaultFont)
          (offsetY size env.defaultFont) whiteColor env.defaultFont) := by
  refine ⟨fun h => ?_, fun n hn h => ?_, fun h => ?_⟩
  · rw [h]; rfl
  · rw [hn]; simp only [selectFont, tryFontLoad, h]
  · have hdef : iconFont env size = env.defaultFont := by
      simp only [iconFont, selectFont, tryFontLoad, h]
    simp only [renderIcon, hdef]

/-- Witness for C9: in `envNoFont` both failure shapes fall back. -/
theorem C9_bare_except_catches_everything_witness :
    selectFont envNoFont (Except.error ()) = envNoFont.defaultFont ∧
    selectFont envNoFont (Except.ok 9) = envNoFont.defaultFont ∧
    renderIcon envNoFont 16 =
      drawText (Image.new 16 bgColor) (offsetX 16 envNoFont.defaultFont)
        (offsetY 16 envNoFont.defaultFont) whiteColor envNoFont.defaultFont :=
  ⟨(C9_bare_except_catches_everything envNoFont (Except.error ()) 16 ()).1 rfl,
   (C9_bare_except_catches_everything envNoFont (Except.ok 9) 16 ()).2.1 9 rfl rfl,
   (C9_bare_except_catches_everything envNoFont (Except.ok 9) 16 ()).2.2 rfl⟩

/-- C10: `create_icon` neither validates nor clamps `size` against the
measured glyph: the rendered image is exactly `size × size` whatever the
bounding box reports; when the measured text width (resp. height) exceeds
`size` the floor-division offset is negative; and drawing simply clips —
coordinates outside the canvas keep the background base color and no error
is raised (rendering is a total function). -/
theorem C10_no_size_validation {ε : Type} (env : Env ε) (size : Nat)
    (_hpos : 0 < size) (px py : Int) :
    (renderIcon env size).width = size ∧ (renderIcon env size).height = size ∧
    ((size : Int) < textWidth (iconFont env size) → offsetX size (iconFont env size) < 0) ∧
    ((size : Int) < textHeight (iconFont env size) → offsetY size (iconFont env size) < 0) ∧
    ((px < 0 ∨ (size : Int) ≤ px ∨ py < 0 ∨ (size : Int) ≤ py) →
      (renderIcon env size).pix px py = bgColor) := by
  refine ⟨rfl, rfl, fun h => ?_, fun h => ?_, fun h => ?_⟩
  · unfold offsetX
    rw [Int.fdiv_eq_ediv _ (by norm_num)]
    omega
  · unfold offsetY
    rw [Int.fdiv_eq_ediv _ (by norm_num)]
    omega
  · simp only [renderIcon, drawText, Image.new]
    rw [if_neg]
    rintro ⟨h1, h2, h3, h4, -⟩
    omega

/-- Witness for C10 at `size = 4`, where the sample glyph (width 6) is wider
than the canvas: the offset is negative and the out-of-canvas coordinate
`(-1, 0)` stays at the background base color. -/
theorem C10_no_size_validation_witness :
    0 < 4 ∧ ((4 : Int) < textWidth (iconFont envOk 4)) ∧
    offsetX 4 (iconFont envOk 4) < 0 ∧
    (renderIcon envOk 4).width = 4 ∧
    (renderIcon envOk 4).pix (-1) 0 = bgColor :=
  ⟨by decide, by decide,
   (C10_no_size_validation envOk 4 (by decide) (-1) 0).2.2.1 (by decide),
   (C10_no_size_validation envOk 4 (by decide) (-1) 0).1,
   (C10_no_size_validation envOk 4 (by decide) (-1) 0).2.2.2.2 (Or.inl (by decide))⟩

end CreateSimpleIcons
